import Mathlib

/-!
Shallow embedding of the client-side protocol code of the wealth-management
conversation supervisor: the HTTP surface in src/api/main.py and the
interactive command-line loop in src/temporal_supervisor/run_supervisor.py.

Effectful calls against the execution substrate (queries, updates, signals,
starts) are embedded by passing their outcome as an explicit parameter and by
recording the calls an endpoint issues as an explicit trace, so that each
endpoint becomes a pure function from outcomes to its HTTP-level result.
-/

/-- Modelled from the spec: a ChatTurn as seen by the clients. The interactive
loop only ever reads the field text_response of an element of the history
(class defined in the workflow module, outside the embedded files). -/
structure ChatInteraction where
  text_response : String
deriving DecidableEq, Repr

/-- Modelled from the spec: the update argument type built by both clients
(common/user_message.py is outside the embedded files). main.py constructs it
with only user_input, run_supervisor.py also passes chat_length. -/
structure ProcessUserMessageInput where
  user_input : String
  chat_length : Option Nat := none
deriving DecidableEq, Repr

/-- WorkflowIDConflictPolicy values used by the code (temporalio.common). -/
inductive WorkflowIDConflictPolicy where
  | useExisting
  | fail
  | terminateExisting
deriving DecidableEq, Repr

/-- WorkflowIDReusePolicy values used by the code (temporalio.common). -/
inductive WorkflowIDReusePolicy where
  | allowDuplicate
  | allowDuplicateFailedOnly
  | rejectDuplicate
deriving DecidableEq, Repr

/-- WorkflowExecutionStatus values (temporalio.api.enums.v1). -/
inductive WorkflowExecutionStatus where
  | running
  | completed
  | failed
  | canceled
  | terminated
  | continuedAsNew
  | timedOut
deriving DecidableEq, Repr

/-- Python substring containment (the in operator on str) on char lists. -/
def listContainsSub (pat : List Char) : List Char → Bool
  | [] => decide (pat = [])
  | c :: rest => pat.isPrefixOf (c :: rest) || listContainsSub pat rest

/-- Python s2 in s1 for strings. -/
def strContains (s pat : String) : Bool :=
  listContainsSub pat.toList s.toList

/-- The fixed workflow identity used by every HTTP endpoint (main.py line 21). -/
def WORKFLOW_ID : String := "oai-temporal-agent"

/-- One call issued against the execution substrate, with the workflow
identity it addresses. -/
inductive SubstrateCall where
  | getHandle (id : String)
  | describe (id : String)
  | query (id : String) (name : String) (rejectNotOpen : Bool)
  | signal (id : String) (name : String)
  | start (id : String) (reuse : WorkflowIDReusePolicy)
  | updateWithStart (id : String) (conflict : WorkflowIDConflictPolicy)
      (updateName : String) (arg : ProcessUserMessageInput)
deriving DecidableEq, Repr

/-- The workflow identity a substrate call addresses. -/
def callWorkflowId : SubstrateCall → String
  | .getHandle id => id
  | .describe id => id
  | .query id _ _ => id
  | .signal id _ => id
  | .start id _ => id
  | .updateWithStart id _ _ _ => id

/-- Result of an endpoint at the HTTP level: a value, or a raised
HTTPException with a status code and detail string. -/
inductive ApiResult (α : Type) where
  | ok (value : α)
  | httpError (status : Nat) (detail : String)
deriving DecidableEq, Repr

/- ------------------------------------------------------------------ -/
/- main.py: POST /start-workflow                                       -/
/- ------------------------------------------------------------------ -/

/-- Outcome of the client.start_workflow substrate call. -/
inductive StartCallOutcome where
  | ok
  | exception (msg : String)
deriving DecidableEq, Repr

/-- Substrate calls issued by start_workflow (main.py lines 148-166). -/
def start_workflow_calls : List SubstrateCall :=
  [.start WORKFLOW_ID .allowDuplicate]

/-- start_workflow endpoint body (main.py lines 148-166): starts the workflow
with ALLOW_DUPLICATE reuse policy; any exception is caught and turned into a
message in the returned JSON body, never re-raised. -/
def start_workflow : StartCallOutcome → ApiResult String
  | .ok => .ok "Workflow started."
  | .exception e => .ok ("An error occurred starting the workflow " ++ e)

/- ------------------------------------------------------------------ -/
/- main.py: GET /get-chat-history                                      -/
/- ------------------------------------------------------------------ -/

/-- The failed_states list of main.py lines 63-67. -/
def failed_states : List WorkflowExecutionStatus :=
  [.terminated, .canceled, .failed]

/-- Outcome of handle.describe() (main.py line 69). -/
inductive DescribeOutcome where
  | ok (status : WorkflowExecutionStatus)
  | temporalError (msg : String)
deriving DecidableEq, Repr

/-- Outcome of the get_chat_history query under asyncio.wait_for
(main.py lines 76-79). -/
inductive QueryOutcome where
  | ok (history : List ChatInteraction)
  | timeout
  | temporalError (msg : String)
deriving DecidableEq, Repr

/-- Result of the /get-chat-history endpoint together with whether it invoked
start_workflow before returning. -/
structure GetChatHistoryResult where
  result : ApiResult (List ChatInteraction)
  startedWorkflow : Bool
deriving DecidableEq, Repr

/-- The except TemporalError handler of main.py lines 86-105. -/
def temporalErrorHandler (msg : String) : GetChatHistoryResult :=
  if strContains msg "no poller seen for task queue recently" then
    ⟨.httpError 404 "Workflow worker unavailable or not found.", false⟩
  else if strContains msg "workflow not found" then
    ⟨.ok [], true⟩
  else
    ⟨.httpError 500 "Internal server error while querying workflow.", false⟩

/-- get_chat_history endpoint body (main.py lines 57-105): describe the
workflow, return [] on failed states, query with a 5 second timeout, map a
timeout to a 404, and handle TemporalError by message matching. -/
def get_chat_history (d : DescribeOutcome) (q : QueryOutcome) :
    GetChatHistoryResult :=
  match d with
  | .temporalError msg => temporalErrorHandler msg
  | .ok status =>
    if status ∈ failed_states then ⟨.ok [], false⟩
    else
      match q with
      | .ok hist => ⟨.ok hist, false⟩
      | .timeout =>
        ⟨.httpError 404 "Temporal query timed out (worker may be unavailable).",
          false⟩
      | .temporalError msg => temporalErrorHandler msg

/-- Substrate calls issued by the TemporalError handler (only the not-found
branch calls start_workflow). -/
def temporal_error_handler_calls (msg : String) : List SubstrateCall :=
  if strContains msg "no poller seen for task queue recently" then []
  else if strContains msg "workflow not found" then start_workflow_calls
  else []

/-- Substrate calls issued by the /get-chat-history endpoint, in order. -/
def get_chat_history_calls (d : DescribeOutcome) (q : QueryOutcome) :
    List SubstrateCall :=
  .getHandle WORKFLOW_ID :: .describe WORKFLOW_ID ::
    (match d with
     | .temporalError msg => temporal_error_handler_calls msg
     | .ok status =>
       if status ∈ failed_states then []
       else
         .query WORKFLOW_ID "get_chat_history" false ::
           (match q with
            | .ok _ => []
            | .timeout => []
            | .temporalError msg => temporal_error_handler_calls msg))

/- ------------------------------------------------------------------ -/
/- main.py: POST /send-prompt                                          -/
/- ------------------------------------------------------------------ -/

/-- Outcome of execute_update_with_start_workflow (main.py lines 124-128). -/
inductive UpdateWithStartOutcome where
  | ok (response : List ChatInteraction)
  | updateFailed (msg : String)
deriving DecidableEq, Repr

/-- The JSON body returned by /send-prompt: the update result, or the string
built from the caught WorkflowUpdateFailedError. -/
inductive PromptResponse where
  | turns (ts : List ChatInteraction)
  | errorText (msg : String)
deriving DecidableEq, Repr

/-- Substrate calls issued by /send-prompt (main.py lines 107-133): a single
atomic update-with-start, whose start operation uses USE_EXISTING. -/
def send_prompt_calls (prompt : String) : List SubstrateCall :=
  [.updateWithStart WORKFLOW_ID .useExisting "process_user_message"
    { user_input := prompt }]

/-- send_prompt endpoint body: returns the update response, or an error text
when the update fails. -/
def send_prompt (outcome : UpdateWithStartOutcome) : PromptResponse :=
  match outcome with
  | .ok r => .turns r
  | .updateFailed m => .errorText ("Error: " ++ m)

/-- State of the single session identity on the substrate side. -/
inductive SessionState where
  | absent
  | running (history : List ChatInteraction)
  | ended (history : List ChatInteraction)
deriving DecidableEq, Repr

/-- Result of the substrate executing an atomic update-with-start. -/
structure UpdateWithStartResult where
  state : SessionState
  createdNew : Bool
deriving DecidableEq, Repr

/-- Modelled from the spec: semantics of the substrate primitive
startThenUpdate with the USE_EXISTING conflict policy (the external execution
substrate, not repository code): when an open instance exists the operation
attaches to it and applies the update there; when none exists it starts a new
instance and applies the update in the same atomic step. The function
applyUpdate returns the turns the update appends to a given history. -/
def updateWithStartUseExisting (st : SessionState)
    (applyUpdate : List ChatInteraction → List ChatInteraction) :
    UpdateWithStartResult :=
  match st with
  | .running h => ⟨.running (h ++ applyUpdate h), false⟩
  | .absent => ⟨.running (applyUpdate []), true⟩
  | .ended _ => ⟨.running (applyUpdate []), true⟩

/- ------------------------------------------------------------------ -/
/- main.py: POST /end-chat                                             -/
/- ------------------------------------------------------------------ -/

/-- Outcome of handle.signal("end_workflow") (main.py line 141). -/
inductive SignalOutcome where
  | ok
  | temporalError (msg : String)
deriving DecidableEq, Repr

/-- The JSON body returned by /end-chat. -/
inductive EndChatResponse where
  | message (m : String)
  | emptyObject
deriving DecidableEq, Repr

/-- Substrate calls issued by /end-chat (main.py lines 136-146). -/
def end_chat_calls : List SubstrateCall :=
  [.getHandle WORKFLOW_ID, .signal WORKFLOW_ID "end_workflow"]

/-- end_chat endpoint body: send the end_workflow signal; a TemporalError is
caught and an empty JSON object is returned. -/
def end_chat : SignalOutcome → EndChatResponse
  | .ok => .message "End chat signal sent."
  | .temporalError _ => .emptyObject

/- ------------------------------------------------------------------ -/
/- run_supervisor.py: attach-or-start (lines 37-64)                    -/
/- ------------------------------------------------------------------ -/

/-- RPC status codes relevant to the attach-or-start protocol. -/
inductive RPCStatus where
  | notFound
  | other (code : Nat)
deriving DecidableEq, Repr

/-- Outcome of the initial get_chat_history query with
reject_condition NOT_OPEN (run_supervisor.py lines 40-43). -/
inductive AttachQueryOutcome where
  | ok (history : List ChatInteraction)
  | queryRejected
  | rpcError (status : RPCStatus)
deriving DecidableEq, Repr

/-- Result of the attach-or-start sequence: whether a new workflow was
started and the history the loop proceeds with. -/
structure AttachResult where
  started : Bool
  history : List ChatInteraction
deriving DecidableEq, Repr

/-- The attach-or-start sequence of run_supervisor.py lines 37-64: query the
workflow with a NOT_OPEN reject condition; a rejection or a NOT_FOUND RPC
error sets start and yields an empty history; any other RPC error is
re-raised; otherwise the queried history is used. -/
def attach_or_start : AttachQueryOutcome → Except RPCStatus AttachResult
  | .ok history => .ok ⟨false, history⟩
  | .queryRejected => .ok ⟨true, []⟩
  | .rpcError s => if s = RPCStatus.notFound then .ok ⟨true, []⟩ else .error s

/-- Substrate calls issued by attach-or-start for conversation id cid. -/
def attach_or_start_calls (cid : String) (q : AttachQueryOutcome) :
    List SubstrateCall :=
  .query cid "get_chat_history" true ::
    (match q with
     | .ok _ => []
     | .queryRejected => [.start cid .allowDuplicate]
     | .rpcError s =>
       if s = RPCStatus.notFound then [.start cid .allowDuplicate] else [])

/- ------------------------------------------------------------------ -/
/- run_supervisor.py: interactive loop (lines 67-102)                  -/
/- ------------------------------------------------------------------ -/

/-- The index computed before printing (run_supervisor.py lines 89 and 100):
len(xs)-1 if len(xs) == 0 else 0. -/
def print_index (n : Nat) : Int :=
  if n = 0 then (n : Int) - 1 else 0

/-- Python list element access xs[i] with negative-index wrap-around,
guarded: out-of-bounds access returns no element. -/
def pythonGet {α : Type} (xs : List α) (i : Int) : Option α :=
  let n : Int := Int.ofNat xs.length
  let j : Int := if i < 0 then n + i else i
  if 0 ≤ j ∧ j < n then xs[j.toNat]? else none

/-- Python str.lower(), charwise over the underlying characters. -/
def strLower (s : String) : String := String.mk (s.data.map Char.toLower)

/-- Whether the line matches an exit token after lower-casing
(run_supervisor.py line 70). -/
def isExitInput (s : String) : Prop :=
  strLower s = "exit" ∨ strLower s = "end" ∨ strLower s = "quit"

instance (s : String) : Decidable (isExitInput s) := by
  unfold isExitInput
  infer_instance

/-- Outcome of handle.execute_update(process_user_message, ...)
(run_supervisor.py lines 84-86). -/
inductive UpdateOutcome where
  | ok (new_history : List ChatInteraction)
  | updateFailed
deriving DecidableEq, Repr

/-- An action the loop body performs against the substrate. -/
inductive LoopAction where
  | signalEnd
  | update (arg : ProcessUserMessageInput)
  | queryHistory (rejectNotOpen : Bool)
deriving DecidableEq, Repr

/-- Result of one iteration of the interactive loop. -/
structure IterationResult where
  actions : List LoopAction
  printedItem : Option ChatInteraction
  history : List ChatInteraction
  exited : Bool
deriving DecidableEq, Repr

/-- One iteration of the interactive loop (run_supervisor.py lines 67-102),
given the local history, the line read, the outcome of the update and the
snapshot a stale-reload query would return: exit tokens signal end_workflow
and leave; otherwise the line is submitted as an update; on success the new
turns are appended and element print_index of the new turns is printed; on
WorkflowUpdateFailedError the full history is reloaded by query and element
print_index of the reloaded snapshot is printed. -/
def loop_iteration (history : List ChatInteraction) (user_input : String)
    (upd : UpdateOutcome) (reload : List ChatInteraction) : IterationResult :=
  if isExitInput user_input then
    ⟨[.signalEnd], none, history, true⟩
  else
    let message_input : ProcessUserMessageInput :=
      ⟨user_input, some history.length⟩
    match upd with
    | .ok new_history =>
      ⟨[.update message_input],
        pythonGet new_history (print_index new_history.length),
        history ++ new_history, false⟩
    | .updateFailed =>
      ⟨[.update message_input, .queryHistory true],
        pythonGet reload (print_index reload.length),
        reload, false⟩

/- ------------------------------------------------------------------ -/
/- Helper lemmas                                                       -/
/- ------------------------------------------------------------------ -/

theorem pythonGet_print_index {α : Type} (xs : List α) :
    pythonGet xs (print_index xs.length) = xs.head? := by
  cases xs with
  | nil => rfl
  | cons x rest =>
    have hpos : (0 : Int) < Int.ofNat (x :: rest).length := by
      simp
    simp [pythonGet, print_index, hpos]

theorem temporal_error_handler_calls_all_id (msg : String) :
    ∀ c ∈ temporal_error_handler_calls msg,
      callWorkflowId c = "oai-temporal-agent" := by
  unfold temporal_error_handler_calls
  split
  · simp
  · split <;> simp [start_workflow_calls, callWorkflowId, WORKFLOW_ID]

/- ------------------------------------------------------------------ -/
/- Claim theorems                                                      -/
/- ------------------------------------------------------------------ -/

/-- C1: For every prompt, the /send-prompt endpoint performs exactly one
substrate operation, the atomic update-with-start applying
process_user_message to the fixed identity, whose start operation uses the
USE_EXISTING conflict policy; under that policy the substrate attaches to an
already-open instance rather than creating a duplicate, and when no open
instance exists it starts one and applies the update in the same atomic
step. -/
theorem send_prompt_atomic_update_with_start (prompt : String)
    (h : List ChatInteraction)
    (f : List ChatInteraction → List ChatInteraction) :
    send_prompt_calls prompt =
      [.updateWithStart WORKFLOW_ID .useExisting "process_user_message"
        ⟨prompt, none⟩] ∧
    updateWithStartUseExisting (.running h) f =
      ⟨.running (h ++ f h), false⟩ ∧
    updateWithStartUseExisting .absent f = ⟨.running (f []), true⟩ ∧
    updateWithStartUseExisting (.ended h) f = ⟨.running (f []), true⟩ :=
  ⟨rfl, rfl, rfl, rfl⟩

/-- C6: The /end-chat endpoint sends the end_workflow signal to the resolved
instance, and any substrate error raised by the signal (session already ended
or unknown) is caught and mapped to a success response with an empty JSON
object, never to an error. -/
theorem end_chat_signal_or_empty (msg : String) :
    end_chat_calls =
      [.getHandle WORKFLOW_ID, .signal WORKFLOW_ID "end_workflow"] ∧
    end_chat .ok = .message "End chat signal sent." ∧
    end_chat (.temporalError msg) = .emptyObject :=
  ⟨rfl, rfl, rfl⟩

/-- C7: The /start-workflow endpoint starts the workflow with the
ALLOW_DUPLICATE identity-reuse policy, and on any internal error it returns a
descriptive failure message in its JSON body instead of raising an
HTTP-level error past the call boundary. -/
theorem start_workflow_error_contained (e : String) (o : StartCallOutcome) :
    start_workflow_calls = [.start WORKFLOW_ID .allowDuplicate] ∧
    start_workflow (.exception e) =
      .ok ("An error occurred starting the workflow " ++ e) ∧
    ∃ s, start_workflow o = .ok s := by
  refine ⟨rfl, rfl, ?_⟩
  cases o with
  | ok => exact ⟨_, rfl⟩
  | exception m => exact ⟨_, rfl⟩

/-- C2: The attach-or-start protocol first issues the get_chat_history query
with the NOT_OPEN reject condition; among runs that return, it starts a new
workflow (with the ALLOW_DUPLICATE reuse policy, proceeding with an empty
history) if and only if that query was rejected as not-open or failed with a
NOT_FOUND RPC error; on a successful query it proceeds with the queried
history, and any other RPC error is re-raised. -/
theorem attach_or_start_protocol (cid : String) (q : AttachQueryOutcome) :
    (attach_or_start_calls cid q).head? =
      some (.query cid "get_chat_history" true) ∧
    (∀ r, attach_or_start q = .ok r →
      (r.started = true ↔
        q = .queryRejected ∨ q = .rpcError .notFound)) ∧
    (∀ r, attach_or_start q = .ok r → r.started = true →
      r.history = [] ∧
      SubstrateCall.start cid .allowDuplicate ∈ attach_or_start_calls cid q) ∧
    (∀ hist, q = .ok hist → attach_or_start q = .ok ⟨false, hist⟩) ∧
    (∀ s, s ≠ RPCStatus.notFound →
      attach_or_start (.rpcError s) = .error s) := by
  refine ⟨?_, ?_, ?_, ?_, ?_⟩
  · cases q with
    | ok hist => rfl
    | queryRejected => rfl
    | rpcError s =>
      by_cases hs : s = RPCStatus.notFound <;>
        simp [attach_or_start_calls, hs]
  · intro r hr
    cases q with
    | ok hist =>
      simp [attach_or_start] at hr
      simp [← hr]
    | queryRejected =>
      simp [attach_or_start] at hr
      simp [← hr]
    | rpcError s =>
      by_cases hs : s = RPCStatus.notFound <;>
        simp [attach_or_start, hs] at hr
      simp [← hr, hs]
  · intro r hr hstarted
    cases q with
    | ok hist =>
      simp [attach_or_start] at hr
      rw [← hr] at hstarted
      simp at hstarted
    | queryRejected =>
      simp [attach_or_start] at hr
      simp [← hr, attach_or_start_calls]
    | rpcError s =>
      by_cases hs : s = RPCStatus.notFound <;>
        simp [attach_or_start, hs] at hr
      simp [← hr, attach_or_start_calls, hs]
  · intro hist hq
    subst hq
    rfl
  · intro s hs
    simp [attach_or_start, hs]

/-- Witness for C2 at the concrete rejected-query outcome. -/
theorem attach_or_start_protocol_witness :
    AttachResult.history ⟨true, []⟩ = ([] : List ChatInteraction) ∧
    SubstrateCall.start "abc123" .allowDuplicate ∈
      attach_or_start_calls "abc123" .queryRejected :=
  (attach_or_start_protocol "abc123" .queryRejected).2.2.1 ⟨true, []⟩ rfl rfl

/-- C4: When the update fails with WorkflowUpdateFailedError, one loop
iteration issues exactly the original update followed by one get_chat_history
reload query (the update is not retried), and the loop resumes from the
reloaded snapshot as its history. -/
theorem stale_update_reload (history : List ChatInteraction) (line : String)
    (reload : List ChatInteraction) (hline : ¬ isExitInput line) :
    loop_iteration history line .updateFailed reload =
      ⟨[.update ⟨line, some history.length⟩, .queryHistory true],
        pythonGet reload (print_index reload.length), reload, false⟩ := by
  simp [loop_iteration, hline]

/-- Witness for C4 at a concrete non-exit line and one-turn reload. -/
theorem stale_update_reload_witness :
    loop_iteration [] "hello" .updateFailed [⟨"r"⟩] =
      ⟨[.update ⟨"hello", some 0⟩, .queryHistory true],
        some ⟨"r"⟩, [⟨"r"⟩], false⟩ :=
  stale_update_reload [] "hello" [⟨"r"⟩] (by decide)

/-- C5 counterexample: when the update returns two new turns, the loop prints
the text response of the FIRST newly returned turn, not the latest one. -/
theorem loop_prints_first_not_latest :
    (loop_iteration [] "hi"
        (.ok [⟨"first"⟩, ⟨"second"⟩]) []).printedItem = some ⟨"first"⟩ ∧
    ([⟨"first"⟩, ⟨"second"⟩] : List ChatInteraction).getLast? =
      some ⟨"second"⟩ ∧
    (loop_iteration [] "hi"
        (.ok [⟨"first"⟩, ⟨"second"⟩]) []).printedItem ≠ some ⟨"second"⟩ := by
  decide

/-- C5 amended: if the line matches one of the tokens exit, end or quit
case-insensitively, the loop sends the end signal and exits without
submitting the line; otherwise it submits the line as a user message and, on
success, prints only the textual response of the first of the newly returned
turns (which is the latest exactly when one turn is returned). -/
theorem loop_exit_tokens_and_first_response
    (history : List ChatInteraction) (line : String)
    (upd : UpdateOutcome) (reload newTurns : List ChatInteraction) :
    (isExitInput line →
      loop_iteration history line upd reload =
        ⟨[.signalEnd], none, history, true⟩) ∧
    (¬ isExitInput line → upd = .ok newTurns →
      (loop_iteration history line upd reload).actions =
        [.update ⟨line, some history.length⟩] ∧
      (loop_iteration history line upd reload).printedItem =
        newTurns.head? ∧
      (loop_iteration history line upd reload).exited = false) := by
  constructor
  · intro hx
    simp [loop_iteration, hx]
  · intro hx hupd
    subst hupd
    simp [loop_iteration, hx, pythonGet_print_index]

/-- Witness for C5 at a concrete exit token and a concrete submission. -/
theorem loop_exit_tokens_and_first_response_witness :
    loop_iteration [] "QUIT" .updateFailed [] =
      ⟨[.signalEnd], none, [], true⟩ ∧
    (loop_iteration [] "hello" (.ok [⟨"r"⟩]) []).printedItem =
      ([⟨"r"⟩] : List ChatInteraction).head? :=
  ⟨(loop_exit_tokens_and_first_response [] "QUIT" .updateFailed [] []).1
      (by decide),
   ((loop_exit_tokens_and_first_response [] "hello" (.ok [⟨"r"⟩]) []
      [⟨"r"⟩]).2 (by decide) rfl).2.1⟩

/-- C10: The computed print index is 0 for a non-empty returned list and -1
for an empty one, which lies outside the list, so the element access used to
print after an update or after a stale reload is in bounds if and only if the
returned list is non-empty (the guarded access returns no element on the
empty list). -/
theorem print_index_in_bounds_iff_nonempty (xs : List ChatInteraction)
    (history reload : List ChatInteraction) (line : String)
    (hline : ¬ isExitInput line) :
    (xs.length = 0 → print_index xs.length = -1) ∧
    (1 ≤ xs.length → print_index xs.length = 0) ∧
    ((pythonGet xs (print_index xs.length)).isSome ↔ xs ≠ []) ∧
    (loop_iteration history line (.ok xs) reload).printedItem =
      pythonGet xs (print_index xs.length) ∧
    (loop_iteration history line .updateFailed xs).printedItem =
      pythonGet xs (print_index xs.length) := by
  refine ⟨?_, ?_, ?_, ?_, ?_⟩
  · intro h
    simp [print_index, h]
  · intro h
    have hne : xs.length ≠ 0 := by omega
    simp [print_index, hne]
  · rw [pythonGet_print_index]
    cases xs <;> simp
  · simp [loop_iteration, hline]
  · simp [loop_iteration, hline]

/-- Witness for C10 at a one-element list and a concrete non-exit line. -/
theorem print_index_in_bounds_iff_nonempty_witness :
    print_index (List.length [(⟨"a"⟩ : ChatInteraction)]) = 0 ∧
    (pythonGet [(⟨"a"⟩ : ChatInteraction)]
      (print_index (List.length [(⟨"a"⟩ : ChatInteraction)]))).isSome :=
  ⟨(print_index_in_bounds_iff_nonempty [⟨"a"⟩] [] [] "hi" (by decide)).2.1
      (by decide),
   ((print_index_in_bounds_iff_nonempty [⟨"a"⟩] [] [] "hi"
      (by decide)).2.2.1).mpr (by decide)⟩

/-- C3: A get_chat_history read that exceeds the 5 second deadline, or whose
substrate error reports that no poller has recently been seen on the task
queue, yields the worker-unavailable HTTP error without starting any
workflow, and that outcome is distinct from the outcome of the
workflow-not-found condition. -/
theorem get_chat_history_worker_unavailable
    (status : WorkflowExecutionStatus) (hs : status ∉ failed_states)
    (q : QueryOutcome) (pmsg nfmsg : String)
    (hp : strContains pmsg "no poller seen for task queue recently" = true)
    (hn : strContains nfmsg "workflow not found" = true)
    (hnp : strContains nfmsg "no poller seen for task queue recently"
      = false) :
    get_chat_history (.ok status) .timeout =
      ⟨.httpError 404 "Temporal query timed out (worker may be unavailable).",
        false⟩ ∧
    get_chat_history (.temporalError pmsg) q =
      ⟨.httpError 404 "Workflow worker unavailable or not found.", false⟩ ∧
    get_chat_history (.ok status) (.temporalError pmsg) =
      ⟨.httpError 404 "Workflow worker unavailable or not found.", false⟩ ∧
    get_chat_history (.temporalError nfmsg) q ≠
      get_chat_history (.ok status) .timeout ∧
    get_chat_history (.temporalError nfmsg) q ≠
      get_chat_history (.temporalError pmsg) q := by
  have hph : temporalErrorHandler pmsg =
      ⟨.httpError 404 "Workflow worker unavailable or not found.", false⟩ := by
    simp [temporalErrorHandler, hp]
  have hnh : temporalErrorHandler nfmsg = ⟨.ok [], true⟩ := by
    simp [temporalErrorHandler, hn, hnp]
  refine ⟨?_, ?_, ?_, ?_, ?_⟩
  · simp [get_chat_history, hs]
  · simp [get_chat_history, hph]
  · simp [get_chat_history, hs, hph]
  · simp [get_chat_history, hs, hnh]
  · simp [get_chat_history, hnh, hph]

/-- Witness for C3 at the concrete poller and not-found messages. -/
theorem get_chat_history_worker_unavailable_witness :
    get_chat_history (.ok .running) .timeout =
      ⟨.httpError 404 "Temporal query timed out (worker may be unavailable).",
        false⟩ :=
  (get_chat_history_worker_unavailable .running (by decide) (.ok [])
    "no poller seen for task queue recently" "workflow not found"
    (by decide) (by decide) (by decide)).1

/-- C8: The read endpoint returns an empty history when the workflow status
is terminated, canceled or failed, and when the workflow is not found; only
in the not-found case it also lazily starts a new workflow before returning
the empty history. -/
theorem get_chat_history_empty_on_failed_or_missing
    (fstatus status : WorkflowExecutionStatus)
    (hf : fstatus ∈ failed_states) (hs : status ∉ failed_states)
    (q q2 : QueryOutcome) (nfmsg : String)
    (hn : strContains nfmsg "workflow not found" = true)
    (hnp : strContains nfmsg "no poller seen for task queue recently"
      = false) :
    get_chat_history (.ok fstatus) q = ⟨.ok [], false⟩ ∧
    failed_states = [.terminated, .canceled, .failed] ∧
    get_chat_history (.temporalError nfmsg) q2 = ⟨.ok [], true⟩ ∧
    SubstrateCall.start WORKFLOW_ID .allowDuplicate ∈
      get_chat_history_calls (.temporalError nfmsg) q2 ∧
    get_chat_history (.ok status) (.temporalError nfmsg) =
      ⟨.ok [], true⟩ := by
  have hnh : temporalErrorHandler nfmsg = ⟨.ok [], true⟩ := by
    simp [temporalErrorHandler, hn, hnp]
  have hnc : temporal_error_handler_calls nfmsg = start_workflow_calls := by
    simp [temporal_error_handler_calls, hn, hnp]
  refine ⟨?_, rfl, ?_, ?_, ?_⟩
  · simp [get_chat_history, hf]
  · simp [get_chat_history, hnh]
  · simp [get_chat_history_calls, hnc, start_workflow_calls]
  · simp [get_chat_history, hs, hnh]

/-- Witness for C8 at the terminated status and the not-found message. -/
theorem get_chat_history_empty_on_failed_or_missing_witness :
    get_chat_history (.ok .terminated) (.ok [⟨"x"⟩]) = ⟨.ok [], false⟩ ∧
    get_chat_history (.temporalError "workflow not found") .timeout =
      ⟨.ok [], true⟩ :=
  have h := get_chat_history_empty_on_failed_or_missing .terminated .running
    (by decide) (by decide) (.ok [⟨"x"⟩]) .timeout "workflow not found"
    (by decide) (by decide)
  ⟨h.1, h.2.2.1⟩

/-- C9: Every substrate call issued by the four HTTP endpoints addresses the
fixed workflow identity oai-temporal-agent, regardless of the endpoint
inputs and outcomes. -/
theorem endpoints_fixed_workflow_id (d : DescribeOutcome) (q : QueryOutcome)
    (prompt : String) :
    ((get_chat_history_calls d q).all
      fun c => callWorkflowId c == "oai-temporal-agent") = true ∧
    ((send_prompt_calls prompt).all
      fun c => callWorkflowId c == "oai-temporal-agent") = true ∧
    (end_chat_calls.all
      fun c => callWorkflowId c == "oai-temporal-agent") = true ∧
    (start_workflow_calls.all
      fun c => callWorkflowId c == "oai-temporal-agent") = true := by
  refine ⟨?_, rfl, rfl, rfl⟩
  cases d with
  | temporalError msg =>
    simp [get_chat_history_calls, callWorkflowId, WORKFLOW_ID]
    exact temporal_error_handler_calls_all_id msg
  | ok status =>
    by_cases hst : status ∈ failed_states
    · simp [get_chat_history_calls, hst, callWorkflowId, WORKFLOW_ID]
    · cases q with
      | ok h =>
        simp [get_chat_history_calls, hst, callWorkflowId, WORKFLOW_ID]
      | timeout =>
        simp [get_chat_history_calls, hst, callWorkflowId, WORKFLOW_ID]
      | temporalError m =>
        simp [get_chat_history_calls, hst, callWorkflowId, WORKFLOW_ID]
        exact temporal_error_handler_calls_all_id m
